import Mathlib

/-!
Shallow embedding of the COF (coefficient of friction) computation core of
the Friction-Tester repository, translated from src/CofCalculation.cpp and
the percentile-average variant in src/Friction-Tester.ino.

Modelling conventions:
* C float / double values are modelled as exact rationals (ℚ); the numeric
  literals 0.85, 0.95, 0.5 of the source are the exact rationals 85/100,
  95/100, 1/2.
* C long values are modelled as ℤ; the C cast (long)(x) of a nonnegative
  floating value truncates toward zero, modelled by cLong below.
* A sample buffer (float pointer plus long count) is modelled as a List ℚ;
  the count argument of the C functions is the length of the list.
* Serial.println diagnostics are modelled as an explicit list of emitted
  lines (the writer part of the result); the C functions have no other
  fault channel.
* malloc may fail nondeterministically; calculateCOF takes that outcome as
  an explicit boolean oracle argument mallocOk.
* qsort with compareFloats orders ascending; it is modelled by
  List.insertionSort with the ≤ order (any comparison sort computes the
  same sorted list).
-/

namespace FrictionTester

/-- C cast (long)(q): truncation toward zero. -/
def cLong (q : ℚ) : ℤ := if q < 0 then ⌈q⌉ else ⌊q⌋

/-- Division as performed by IEEE doubles in the source: a division whose
divisor is zero yields NaN/Inf, modelled as none. -/
def qdiv? (a b : ℚ) : Option ℚ := if b = 0 then none else some (a / b)

/-- Array read samples[i]; all reads performed by the embedded code are in
bounds, out-of-range reads (undefined behaviour in C) default to 0. -/
def sampleAt (l : List ℚ) (i : ℕ) : ℚ := l.getD i 0

/-- Result structure CofResult of CofCalculation.h: { cof, avgForceLb,
avgBias, pairedCount }. -/
structure CofResult where
  cof : ℚ
  avgForceLb : ℚ
  avgBias : ℚ
  pairedCount : ℤ
  deriving Repr, DecidableEq

/-- CofCalculation.cpp, computeTrimParams: trim offsets and pair count from
raw counts and trim fraction; none models the false return (no valid
pairs). -/
def computeTrimParams (fwdCount revCount : ℤ) (trimFraction : ℚ) :
    Option (ℤ × ℤ × ℤ) :=
  let fwdTrim := cLong ((fwdCount : ℚ) * trimFraction)
  let revTrim := cLong ((revCount : ℚ) * trimFraction)
  let fwdTrimmed := fwdCount - 2 * fwdTrim
  let revTrimmed := revCount - 2 * revTrim
  if fwdTrimmed ≤ 0 ∨ revTrimmed ≤ 0 then none
  else some (fwdTrim, revTrim, min fwdTrimmed revTrimmed)

/-- Per-pair friction magnitude, fabsf(fwd - rev) / 2.0f. -/
def pairFriction (fwd rev : ℚ) : ℚ := |fwd - rev| / 2

/-- Per-pair positional bias, (fwd + rev) / 2.0. -/
def pairBias (fwd rev : ℚ) : ℚ := (fwd + rev) / 2

/-- The pairedFriction array built by the loop in calculateCOF: entry i
pairs fwdSamples[fwdStart + i] with revSamples[revStart + (pairCount - 1 - i)]
(the comment in the source: flip for position). -/
def pairedFriction (fwd rev : List ℚ) (fwdStart revStart pairCount : ℕ) :
    List ℚ :=
  (List.range pairCount).map fun i =>
    pairFriction (sampleAt fwd (fwdStart + i))
      (sampleAt rev (revStart + (pairCount - 1 - i)))

/-- The per-pair biases accumulated into biasSum by the same loop. -/
def pairedBias (fwd rev : List ℚ) (fwdStart revStart pairCount : ℕ) :
    List ℚ :=
  (List.range pairCount).map fun i =>
    pairBias (sampleAt fwd (fwdStart + i))
      (sampleAt rev (revStart + (pairCount - 1 - i)))

/-- CofCalculation.cpp, avgPercentileBand: mean of all samples when count
is below 10, otherwise the mean of the half-open band [idx85, idx95) of the
ascending-sorted copy. -/
def avgPercentileBand (samples : List ℚ) : ℚ :=
  let count := samples.length
  if count < 10 then
    if 0 < count then samples.sum / (count : ℚ) else 0
  else
    let sorted := List.insertionSort (fun a b => a ≤ b) samples
    let idx85 := cLong ((count : ℚ) * (85 / 100))
    let idx95 := cLong ((count : ℚ) * (95 / 100))
    let idx85 := if idx95 ≤ idx85 then idx95 - 1 else idx85
    let idx85 := if idx85 < 0 then 0 else idx85
    let rangeCount := idx95 - idx85
    let bandSum := ((sorted.drop idx85.toNat).take rangeCount.toNat).sum
    if 0 < rangeCount then bandSum / (rangeCount : ℚ) else 0

/-- Arithmetic mean, the first accumulation pass of avgWithinOneStdDev. -/
def listMean (samples : List ℚ) : ℚ := samples.sum / (samples.length : ℚ)

/-- Population variance, the second accumulation pass of avgWithinOneStdDev
(sqSum / count); the stddev of the source is its square root. -/
def popVariance (samples : List ℚ) : ℚ :=
  (samples.map fun s => (s - listMean samples) * (s - listMean samples)).sum /
    (samples.length : ℚ)

/-- CofCalculation.cpp, avgWithinOneStdDev: mean of the samples lying
within one population standard deviation of the mean, falling back to the
unfiltered mean when the filtered set is empty.  The source keeps sample s
iff mean - stddev ≤ s ∧ s ≤ mean + stddev with stddev = sqrt(variance);
since stddev ≥ 0 this is equivalent to (s - mean) * (s - mean) ≤ variance,
which is the form used here because sqrt leaves ℚ (the equivalence is
proved in the C5 theorem below). -/
def avgWithinOneStdDev (samples : List ℚ) : ℚ :=
  if samples.length = 0 then 0
  else
    let mean := listMean samples
    let variance := popVariance samples
    let filtered := samples.filter fun s => (s - mean) * (s - mean) ≤ variance
    if 0 < filtered.length then filtered.sum / (filtered.length : ℚ) else mean

/-- Friction-Tester.ino, calculatePercentileAverage: the older variant of
the percentile band average.  It averages absolute values and, in the
count < 10 branch, returns sum / count with no guard against count = 0,
so an empty buffer performs the IEEE division 0.0 / 0.0 (NaN), modelled by
qdiv?. -/
def calculatePercentileAverage (samples : List ℚ) : Option ℚ :=
  let count := samples.length
  if count < 10 then
    qdiv? (samples.map fun s => |s|).sum (count : ℚ)
  else
    let absSorted := List.insertionSort (fun a b => a ≤ b)
      (samples.map fun s => |s|)
    let idx85 := cLong ((count : ℚ) * (85 / 100))
    let idx95 := cLong ((count : ℚ) * (95 / 100))
    let idx85 := if idx95 ≤ idx85 then idx95 - 1 else idx85
    let idx85 := if idx85 < 0 then 0 else idx85
    let rangeCount := idx95 - idx85
    let bandSum := ((absSorted.drop idx85.toNat).take rangeCount.toNat).sum
    some (if 0 < rangeCount then bandSum / (rangeCount : ℚ) else 0)

/-- Serial line printed by calculateCOF when trimming leaves no pairs. -/
def errNoPairs : String := "ERROR: No valid pairs after trimming"

/-- Serial line printed by calculateCOF when malloc fails. -/
def errMalloc : String := "ERROR: calculateCOF malloc failed"

/-- CofCalculation.cpp, calculateCOF.  Returns the CofResult together with
the Serial lines the call prints.  mallocOk is the outcome of the
pairedFriction working-buffer allocation. -/
def calculateCOF (mallocOk : Bool) (fwdSamples revSamples : List ℚ)
    (normalForceLb trimFraction : ℚ) (avgFn : List ℚ → ℚ) :
    CofResult × List String :=
  match computeTrimParams (fwdSamples.length : ℤ) (revSamples.length : ℤ)
      trimFraction with
  | none => (⟨0, 0, 0, 0⟩, [errNoPairs])
  | some (fwdStart, revStart, pairCount) =>
    if mallocOk then
      let pf := pairedFriction fwdSamples revSamples
        fwdStart.toNat revStart.toNat pairCount.toNat
      let biasSum := (pairedBias fwdSamples revSamples
        fwdStart.toNat revStart.toNat pairCount.toNat).sum
      let avgForce := avgFn pf
      (⟨if 0 < normalForceLb then avgForce / normalForceLb else 0,
        avgForce, biasSum / (pairCount : ℚ), pairCount⟩, [])
    else (⟨0, 0, 0, 0⟩, [errMalloc])

/-- The four decimal digits printed by the fraction loop of Arduino
Print::printFloat for a digit value below 10000. -/
def pad4 (m : ℕ) : String :=
  String.mk [Nat.digitChar (m / 1000 % 10), Nat.digitChar (m / 100 % 10),
    Nat.digitChar (m / 10 % 10), Nat.digitChar (m % 10)]

/-- The fractional digit value extracted by Serial.print(x, 4): four
decimal digits of |x| + 0.00005 after its integer part. -/
def frac4 (q : ℚ) : ℕ :=
  (⌊(|q| + 1 / 20000) * 10000⌋ - ⌊|q| + 1 / 20000⌋ * 10000).toNat

/-- Serial.print(x, 4) (Arduino Print::printFloat with 4 digits): optional
minus sign, integer part of |x| + 0.00005, a dot, then four fractional
digits. -/
def fmt4 (q : ℚ) : String :=
  (if q < 0 then "-" else "") ++ toString (⌊|q| + 1 / 20000⌋.toNat) ++ "." ++
    pad4 (frac4 q)

/-- Sentinel line opening the CSV dump. -/
def csvStart : String := "---PAIRED_CSV_START---"

/-- Sentinel line closing the CSV dump. -/
def csvEnd : String := "---PAIRED_CSV_END---"

/-- Header line of the paired-data CSV dump. -/
def csvHeader : String := "pos_index,fwd_force,rev_force,friction,bias"

/-- One data row of the paired-data CSV dump: index, forward force,
reverse force, friction and bias, forces printed with 4 decimals. -/
def csvRow (i : ℕ) (fwd rev : ℚ) : String :=
  toString i ++ "," ++ fmt4 fwd ++ "," ++ fmt4 rev ++ "," ++
    fmt4 (pairFriction fwd rev) ++ "," ++ fmt4 (pairBias fwd rev)

/-- CofCalculation.cpp, dumpPairedDataCSV: the sequence of Serial lines
the call prints. -/
def dumpPairedDataCSV (fwdSamples revSamples : List ℚ) (trimFraction : ℚ) :
    List String :=
  match computeTrimParams (fwdSamples.length : ℤ) (revSamples.length : ℤ)
      trimFraction with
  | none => [csvStart, "ERROR: no valid pairs", csvEnd]
  | some (fwdStart, revStart, pairCount) =>
    [csvStart, csvHeader] ++
      ((List.range pairCount.toNat).map fun i =>
        csvRow i (sampleAt fwdSamples (fwdStart.toNat + i))
          (sampleAt revSamples
            (revStart.toNat + (pairCount.toNat - 1 - i)))) ++
      [csvEnd]

/-- Companion definition transcribing the specification wording of the
percentile-band strategy, stated on the ascending-sorted value list:
idx85 = floor(count times 0.85), idx95 = floor(count times 0.95), the
adjustment idx85 = idx95 - 1 clamped to 0 when idx85 would reach idx95,
and the mean of the half-open band.  Compared against avgPercentileBand in
the C4 theorem. -/
def specPercentileBand (sorted : List ℚ) : ℚ :=
  let count := sorted.length
  if count = 0 then 0
  else if count < 10 then sorted.sum / (count : ℚ)
  else
    let idx85 := ⌊(count : ℚ) * (85 / 100)⌋
    let idx95 := ⌊(count : ℚ) * (95 / 100)⌋
    let idx85 := if idx95 ≤ idx85 then max (idx95 - 1) 0 else idx85
    ((sorted.drop idx85.toNat).take (idx95 - idx85).toNat).sum /
      ((idx95 - idx85) : ℚ)

/-- Companion definition transcribing the specification wording of the
within-one-standard-deviation strategy, parametrised by the standard
deviation σ: keep the samples of the closed band from mean - σ to mean + σ
and return their mean, with the unfiltered mean as fallback when the
filtered set is empty.  Compared against avgWithinOneStdDev in the C5
theorem. -/
def specWithinOneStdDev (samples : List ℚ) (σ : ℚ) : ℚ :=
  if samples.length = 0 then 0
  else
    let mean := listMean samples
    let filtered := samples.filter fun s => mean - σ ≤ s ∧ s ≤ mean + σ
    if 0 < filtered.length then filtered.sum / (filtered.length : ℚ) else mean

end FrictionTester

namespace FrictionTester

theorem cLong_of_nonneg {q : ℚ} (h : 0 ≤ q) : cLong q = ⌊q⌋ := by
  simp only [cLong, if_neg (not_lt.mpr h)]

theorem computeTrimParams_eq_some {fc rc : ℤ} {tf : ℚ} {fs rs pc : ℤ}
    (h : computeTrimParams fc rc tf = some (fs, rs, pc)) :
    fs = cLong ((fc : ℚ) * tf) ∧ rs = cLong ((rc : ℚ) * tf) ∧
    0 < fc - 2 * fs ∧ 0 < rc - 2 * rs ∧
    pc = min (fc - 2 * fs) (rc - 2 * rs) := by
  simp only [computeTrimParams] at h
  by_cases hcond : fc - 2 * cLong ((fc : ℚ) * tf) ≤ 0 ∨
      rc - 2 * cLong ((rc : ℚ) * tf) ≤ 0
  · rw [if_pos hcond] at h; cases h
  · rw [if_neg hcond] at h
    push_neg at hcond
    have h2 := Option.some.inj h
    obtain ⟨h3, h4, h5⟩ : cLong ((fc : ℚ) * tf) = fs ∧
        cLong ((rc : ℚ) * tf) = rs ∧
        min (fc - 2 * cLong ((fc : ℚ) * tf))
          (rc - 2 * cLong ((rc : ℚ) * tf)) = pc := by
      simpa [Prod.ext_iff] using h2
    subst h3; subst h4; subst h5
    exact ⟨rfl, rfl, by omega, by omega, rfl⟩

theorem calculateCOF_success {fwd rev : List ℚ} {tf : ℚ} {fs rs pc : ℤ}
    (h : computeTrimParams (fwd.length : ℤ) (rev.length : ℤ) tf =
      some (fs, rs, pc)) (n : ℚ) (f : List ℚ → ℚ) :
    calculateCOF true fwd rev n tf f =
      (⟨if 0 < n then f (pairedFriction fwd rev fs.toNat rs.toNat pc.toNat) / n
          else 0,
        f (pairedFriction fwd rev fs.toNat rs.toNat pc.toNat),
        (pairedBias fwd rev fs.toNat rs.toNat pc.toNat).sum / (pc : ℚ),
        pc⟩, []) := by
  unfold calculateCOF
  rw [h]
  rfl

theorem calculateCOF_none {fwd rev : List ℚ} {tf : ℚ}
    (h : computeTrimParams (fwd.length : ℤ) (rev.length : ℤ) tf = none)
    (mOk : Bool) (n : ℚ) (f : List ℚ → ℚ) :
    calculateCOF mOk fwd rev n tf f = (⟨0, 0, 0, 0⟩, [errNoPairs]) := by
  unfold calculateCOF
  rw [h]

theorem calculateCOF_nomalloc {fwd rev : List ℚ} {tf : ℚ} {fs rs pc : ℤ}
    (h : computeTrimParams (fwd.length : ℤ) (rev.length : ℤ) tf =
      some (fs, rs, pc)) (n : ℚ) (f : List ℚ → ℚ) :
    calculateCOF false fwd rev n tf f = (⟨0, 0, 0, 0⟩, [errMalloc]) := by
  unfold calculateCOF
  rw [h]
  rfl

theorem dumpPairedDataCSV_success {fwd rev : List ℚ} {tf : ℚ} {fs rs pc : ℤ}
    (h : computeTrimParams (fwd.length : ℤ) (rev.length : ℤ) tf =
      some (fs, rs, pc)) :
    dumpPairedDataCSV fwd rev tf =
      [csvStart, csvHeader] ++
        ((List.range pc.toNat).map fun i =>
          csvRow i (sampleAt fwd (fs.toNat + i))
            (sampleAt rev (rs.toNat + (pc.toNat - 1 - i)))) ++
        [csvEnd] := by
  unfold dumpPairedDataCSV
  rw [h]

theorem dumpPairedDataCSV_none {fwd rev : List ℚ} {tf : ℚ}
    (h : computeTrimParams (fwd.length : ℤ) (rev.length : ℤ) tf = none) :
    dumpPairedDataCSV fwd rev tf =
      [csvStart, "ERROR: no valid pairs", csvEnd] := by
  unfold dumpPairedDataCSV
  rw [h]

theorem C6_empty_count_zero :
    avgPercentileBand [] = 0 ∧ avgWithinOneStdDev [] = 0 ∧
    calculatePercentileAverage [] = none := by
  refine ⟨by norm_num [avgPercentileBand], by norm_num [avgWithinOneStdDev],
    by norm_num [calculatePercentileAverage, qdiv?]⟩

/-- C3 counterexample: adding the common offset 1 to the constant readings
5.0 and 3.0 keeps every per-pair friction magnitude at 1.0 but moves
avgBias from 4.0 to 5.0, so avgBias is not independent of a constant
offset added equally to both directions. -/
theorem C3_counterexample :
    (calculateCOF true [6, 6, 6] [4, 4, 4] 1 0 avgPercentileBand).1.avgBias
        = 5 ∧
    (calculateCOF true [6, 6, 6] [4, 4, 4] 1 0 avgPercentileBand).1.avgBias
        ≠ 4 ∧
    pairedFriction [6, 6, 6] [4, 4, 4] 0 0 3 = [1, 1, 1] := by
  have h : computeTrimParams (([6, 6, 6] : List ℚ).length : ℤ)
      (([4, 4, 4] : List ℚ).length : ℤ) 0 = some (0, 0, 3) := by
    norm_num [computeTrimParams, cLong]
  rw [calculateCOF_success h]
  norm_num [pairedFriction, pairedBias, pairFriction, pairBias, sampleAt,
    List.range_succ, show Int.toNat 3 = 3 from rfl]

/-- C7 counterexample: a successful calculateCOF call with
normalForceLb = 0 returns cof = 0 but prints no diagnostic line, and
CofResult carries no fault field, so no fault is signaled. -/
theorem C7_counterexample :
    calculateCOF true [5] [3] 0 0 avgPercentileBand =
      (⟨0, 1, 4, 1⟩, []) := by
  have h : computeTrimParams (([5] : List ℚ).length : ℤ)
      (([3] : List ℚ).length : ℤ) 0 = some (0, 0, 1) := by
    norm_num [computeTrimParams, cLong]
  rw [calculateCOF_success h]
  norm_num [pairedFriction, pairedBias, pairFriction, pairBias, sampleAt,
    avgPercentileBand, List.range_succ]

/-- C8 counterexample: with 5 samples per direction and
trimFraction = 0.5, the trim removes floor(5 times 0.5) = 2 samples from
each end, one sample survives in each pass, and calculateCOF returns a
successful one-pair result rather than a Failure. -/
theorem C8_counterexample :
    computeTrimParams 5 5 (1 / 2) = some (2, 2, 1) ∧
    (calculateCOF true [1, 2, 3, 4, 5] [1, 2, 3, 4, 5] 1 (1 / 2)
        avgPercentileBand).1.pairedCount = 1 ∧
    (calculateCOF true [1, 2, 3, 4, 5] [1, 2, 3, 4, 5] 1 (1 / 2)
        avgPercentileBand).2 = [] := by
  have h : computeTrimParams (([1, 2, 3, 4, 5] : List ℚ).length : ℤ)
      (([1, 2, 3, 4, 5] : List ℚ).length : ℤ) (1 / 2) = some (2, 2, 1) := by
    norm_num [computeTrimParams, cLong]
  rw [calculateCOF_success h]
  refine ⟨by norm_num [computeTrimParams, cLong], by norm_num, by norm_num⟩

/-- C9 counterexample: on a 3-pair data set the paired-data CSV dump
prints 6 lines, not 4 — the header and the 3 data rows are framed by the
START and END sentinel lines. -/
theorem C9_counterexample :
    (dumpPairedDataCSV [5, 5, 5] [3, 3, 3] 0).length = 6 ∧
    (dumpPairedDataCSV [5, 5, 5] [3, 3, 3] 0).length ≠ 4 := by
  have h : computeTrimParams (([5, 5, 5] : List ℚ).length : ℤ)
      (([3, 3, 3] : List ℚ).length : ℤ) 0 = some (0, 0, 3) := by
    norm_num [computeTrimParams, cLong]
  rw [dumpPairedDataCSV_success h]
  decide

theorem computeTrimParams_floor {fc rc : ℤ} {tf : ℚ} (hfc : 0 ≤ fc)
    (hrc : 0 ≤ rc) (htf : 0 ≤ tf) :
    computeTrimParams fc rc tf =
      if fc - 2 * ⌊(fc : ℚ) * tf⌋ ≤ 0 ∨ rc - 2 * ⌊(rc : ℚ) * tf⌋ ≤ 0 then
        none
      else some (⌊(fc : ℚ) * tf⌋, ⌊(rc : ℚ) * tf⌋,
        min (fc - 2 * ⌊(fc : ℚ) * tf⌋) (rc - 2 * ⌊(rc : ℚ) * tf⌋)) := by
  unfold computeTrimParams
  rw [cLong_of_nonneg (mul_nonneg (by exact_mod_cast hfc) htf),
    cLong_of_nonneg (mul_nonneg (by exact_mod_cast hrc) htf)]

theorem trimmed_pos {c : ℤ} {tf : ℚ} (hc : 0 < c) (h0 : 0 ≤ tf)
    (h1 : tf < 1 / 2) : 0 < c - 2 * ⌊(c : ℚ) * tf⌋ := by
  have hfl : (⌊(c : ℚ) * tf⌋ : ℚ) ≤ (c : ℚ) * tf := Int.floor_le _
  have hcq : (0 : ℚ) < (c : ℚ) := by exact_mod_cast hc
  have h2 : (c : ℚ) * tf < (c : ℚ) * (1 / 2) :=
    mul_lt_mul_of_pos_left h1 hcq
  have h3 : ((2 * ⌊(c : ℚ) * tf⌋ : ℤ) : ℚ) < (c : ℚ) := by push_cast; nlinarith
  have h4 : 2 * ⌊(c : ℚ) * tf⌋ < c := by exact_mod_cast h3
  omega

/-- C1: for every nonnegative trimFraction below one half and non-empty
sample buffers, both trimmed counts are positive and the pairedCount
returned by calculateCOF equals the minimum of the two floor-trimmed
counts; and whenever either trimmed count is nonpositive, calculateCOF
fails with the all-zero result and the no-valid-pairs error line. -/
theorem C1_trim_and_pairCount :
    (∀ (fwd rev : List ℚ) (n tf : ℚ) (f : List ℚ → ℚ),
        0 ≤ tf → tf < 1 / 2 → fwd ≠ [] → rev ≠ [] →
        0 < (fwd.length : ℤ) - 2 * ⌊(fwd.length : ℚ) * tf⌋ ∧
        0 < (rev.length : ℤ) - 2 * ⌊(rev.length : ℚ) * tf⌋ ∧
        (calculateCOF true fwd rev n tf f).1.pairedCount =
          min ((fwd.length : ℤ) - 2 * ⌊(fwd.length : ℚ) * tf⌋)
            ((rev.length : ℤ) - 2 * ⌊(rev.length : ℚ) * tf⌋)) ∧
    (∀ (mOk : Bool) (fwd rev : List ℚ) (n tf : ℚ) (f : List ℚ → ℚ),
        0 ≤ tf →
        ((fwd.length : ℤ) - 2 * ⌊(fwd.length : ℚ) * tf⌋ ≤ 0 ∨
          (rev.length : ℤ) - 2 * ⌊(rev.length : ℚ) * tf⌋ ≤ 0) →
        calculateCOF mOk fwd rev n tf f = (⟨0, 0, 0, 0⟩, [errNoPairs])) := by
  constructor
  · intro fwd rev n tf f h0 h1 hf hr
    have hfc : 0 < (fwd.length : ℤ) := by
      exact_mod_cast List.length_pos.mpr hf
    have hrc : 0 < (rev.length : ℤ) := by
      exact_mod_cast List.length_pos.mpr hr
    have hfpos : 0 < (fwd.length : ℤ) - 2 * ⌊(fwd.length : ℚ) * tf⌋ := by
      have h := trimmed_pos hfc h0 h1
      push_cast at h ⊢
      exact h
    have hrpos : 0 < (rev.length : ℤ) - 2 * ⌊(rev.length : ℚ) * tf⌋ := by
      have h := trimmed_pos hrc h0 h1
      push_cast at h ⊢
      exact h
    have htrim := computeTrimParams_floor hfc.le hrc.le h0
    push_cast at htrim
    rw [if_neg (by push_neg; exact ⟨by omega, by omega⟩)] at htrim
    exact ⟨hfpos, hrpos, by rw [calculateCOF_success htrim]⟩
  · intro mOk fwd rev n tf f h0 hle
    have htrim := @computeTrimParams_floor (fwd.length : ℤ)
      (rev.length : ℤ) tf (by exact_mod_cast Nat.zero_le _)
      (by exact_mod_cast Nat.zero_le _) h0
    push_cast at htrim
    rw [if_pos hle] at htrim
    exact calculateCOF_none htrim mOk n f

/-- Witness for C1 at concrete inputs: a 4-sample and a 2-sample buffer
with trimFraction 1/4 pair down to 2 pairs, and an empty forward buffer
makes calculateCOF fail. -/
theorem C1_witness :
    (0 : ℚ) ≤ 1 / 4 ∧ (1 / 4 : ℚ) < 1 / 2 ∧
    (calculateCOF true [1, 2, 3, 4] [5, 6] 1 (1 / 4)
        avgPercentileBand).1.pairedCount = 2 ∧
    calculateCOF false [] [1] 1 0 avgPercentileBand =
      (⟨0, 0, 0, 0⟩, [errNoPairs]) := by
  refine ⟨by norm_num, by norm_num, ?_, ?_⟩
  · have h := (C1_trim_and_pairCount.1 [1, 2, 3, 4] [5, 6] 1 (1 / 4)
      avgPercentileBand (by norm_num) (by norm_num) (by simp) (by simp)).2.2
    rw [h]
    norm_num
  · exact C1_trim_and_pairCount.2 false [] [1] 1 0 avgPercentileBand le_rfl
      (by norm_num)

/-- C10: calculateCOF signals failure only through the returned CofResult:
both failure paths (no valid pairs after trimming, malloc failure) return
the all-zero result, pairedCount is zero exactly on the failure paths, and
every successful call returns pairedCount at least 1. -/
theorem C10_failure_signaling :
    ∀ (mOk : Bool) (fwd rev : List ℚ) (n tf : ℚ) (f : List ℚ → ℚ),
      ((computeTrimParams (fwd.length : ℤ) (rev.length : ℤ) tf = none ∨
          mOk = false) →
        (calculateCOF mOk fwd rev n tf f).1 = ⟨0, 0, 0, 0⟩) ∧
      ((calculateCOF mOk fwd rev n tf f).1.pairedCount = 0 ↔
        (computeTrimParams (fwd.length : ℤ) (rev.length : ℤ) tf = none ∨
          mOk = false)) ∧
      (computeTrimParams (fwd.length : ℤ) (rev.length : ℤ) tf ≠ none →
        mOk = true →
        1 ≤ (calculateCOF mOk fwd rev n tf f).1.pairedCount) := by
  intro mOk fwd rev n tf f
  match htrim : computeTrimParams (fwd.length : ℤ) (rev.length : ℤ) tf with
  | none =>
    rw [calculateCOF_none htrim]
    simp
  | some (fs, rs, pc) =>
    have hpc : 1 ≤ pc := by
      have h := computeTrimParams_eq_some htrim
      omega
    cases mOk with
    | false =>
      rw [calculateCOF_nomalloc htrim]
      simp
    | true =>
      rw [calculateCOF_success htrim]
      refine ⟨by simp, ?_, fun _ _ => hpc⟩
      simp only [htrim]
      constructor
      · intro h
        omega
      · rintro (h | h) <;> simp_all

/-- Witness for C10 at concrete inputs: an empty forward buffer yields the
all-zero result, and a successful 1-sample call yields pairedCount 1. -/
theorem C10_witness :
    (calculateCOF true [] [1] 1 0 avgPercentileBand).1 = ⟨0, 0, 0, 0⟩ ∧
    1 ≤ (calculateCOF true [5] [3] 0 0 avgPercentileBand).1.pairedCount := by
  constructor
  · exact (C10_failure_signaling true [] [1] 1 0 avgPercentileBand).1
      (Or.inl (by norm_num [computeTrimParams, cLong]))
  · have htrim : computeTrimParams (([5] : List ℚ).length : ℤ)
        (([3] : List ℚ).length : ℤ) 0 = some (0, 0, 1) := by
      norm_num [computeTrimParams, cLong]
    exact (C10_failure_signaling true [5] [3] 0 0 avgPercentileBand).2.2
      (by rw [htrim]; simp) rfl

/-- C7 amended: on every successful trim, calculateCOF with
normalForceLb at most 0 returns cof = 0 silently (no error line is
printed, and CofResult has no fault field), and with normalForceLb
positive it returns cof = avgForceLb / normalForceLb; it never throws and
stays in exact arithmetic (no NaN or Inf). -/
theorem C7_cof_guard :
    ∀ (fwd rev : List ℚ) (n tf : ℚ) (f : List ℚ → ℚ) (p : ℤ × ℤ × ℤ),
      computeTrimParams (fwd.length : ℤ) (rev.length : ℤ) tf = some p →
      (n ≤ 0 → (calculateCOF true fwd rev n tf f).1.cof = 0 ∧
        (calculateCOF true fwd rev n tf f).2 = []) ∧
      (0 < n → (calculateCOF true fwd rev n tf f).1.cof =
        (calculateCOF true fwd rev n tf f).1.avgForceLb / n) := by
  intro fwd rev n tf f p htrim
  obtain ⟨fs, rs, pc⟩ := p
  rw [calculateCOF_success htrim]
  constructor
  · intro hn
    exact ⟨by rw [if_neg (not_lt.mpr hn)], rfl⟩
  · intro hn
    rw [if_pos hn]

/-- Witness for C7 at concrete inputs: normalForceLb 0 gives cof 0 and an
empty log; normalForceLb 2 gives cof = avgForceLb / 2. -/
theorem C7_witness :
    ((calculateCOF true [5] [3] 0 0 avgPercentileBand).1.cof = 0 ∧
      (calculateCOF true [5] [3] 0 0 avgPercentileBand).2 = []) ∧
    (calculateCOF true [5] [3] 2 0 avgPercentileBand).1.cof =
      (calculateCOF true [5] [3] 2 0 avgPercentileBand).1.avgForceLb / 2 := by
  have htrim : computeTrimParams (([5] : List ℚ).length : ℤ)
      (([3] : List ℚ).length : ℤ) 0 = some (0, 0, 1) := by
    norm_num [computeTrimParams, cLong]
  constructor
  · exact (C7_cof_guard [5] [3] 0 0 avgPercentileBand (0, 0, 1) htrim).1
      le_rfl
  · exact (C7_cof_guard [5] [3] 2 0 avgPercentileBand (0, 0, 1) htrim).2
      (by norm_num)

/-- C8 amended: 5 samples per direction with trimFraction one half trim
2 samples from each end and leave one pair, a successful result; the trim
removes every sample only at even counts such as 4, where calculateCOF
does return the failure result. -/
theorem C8_trim_half :
    (∀ (fwd rev : List ℚ) (n : ℚ) (f : List ℚ → ℚ),
        fwd.length = 5 → rev.length = 5 →
        (calculateCOF true fwd rev n (1 / 2) f).1.pairedCount = 1) ∧
    (∀ (mOk : Bool) (fwd rev : List ℚ) (n : ℚ) (f : List ℚ → ℚ),
        fwd.length = 4 → rev.length = 4 →
        calculateCOF mOk fwd rev n (1 / 2) f =
          (⟨0, 0, 0, 0⟩, [errNoPairs])) := by
  constructor
  · intro fwd rev n f hf hr
    have htrim : computeTrimParams (fwd.length : ℤ) (rev.length : ℤ)
        (1 / 2) = some (2, 2, 1) := by
      rw [hf, hr]
      norm_num [computeTrimParams, cLong]
    rw [calculateCOF_success htrim]
  · intro mOk fwd rev n f hf hr
    have htrim : computeTrimParams (fwd.length : ℤ) (rev.length : ℤ)
        (1 / 2) = none := by
      rw [hf, hr]
      norm_num [computeTrimParams, cLong]
    exact calculateCOF_none htrim mOk n f

/-- Witness for C8 at concrete inputs: 5-sample buffers succeed with one
pair at trimFraction one half, 4-sample buffers fail. -/
theorem C8_witness :
    (calculateCOF true [1, 2, 3, 4, 5] [6, 7, 8, 9, 10] 1 (1 / 2)
        avgPercentileBand).1.pairedCount = 1 ∧
    calculateCOF true [1, 2, 3, 4] [5, 6, 7, 8] 1 (1 / 2)
        avgPercentileBand = (⟨0, 0, 0, 0⟩, [errNoPairs]) := by
  constructor
  · exact C8_trim_half.1 [1, 2, 3, 4, 5] [6, 7, 8, 9, 10] 1
      avgPercentileBand rfl rfl
  · exact C8_trim_half.2 true [1, 2, 3, 4] [5, 6, 7, 8] 1
      avgPercentileBand rfl rfl

/-- C2: pair i of the pairedFriction loop combines the forward sample at
fwdStart + i with the reverse sample at revStart + (pairCount - 1 - i);
equivalently, the loop pairs the forward trimmed window element-for-element
with the reversal of the first pairCount samples of the reverse trimmed
window. -/
theorem C2_reverse_order_pairing :
    ∀ (fwd rev : List ℚ) (fs rs pc : ℕ),
      fs + pc ≤ fwd.length → rs + pc ≤ rev.length →
      (∀ i, i < pc →
        (pairedFriction fwd rev fs rs pc).getD i 0 =
          pairFriction (sampleAt fwd (fs + i))
            (sampleAt rev (rs + (pc - 1 - i)))) ∧
      pairedFriction fwd rev fs rs pc =
        List.zipWith pairFriction ((fwd.drop fs).take pc)
          (((rev.drop rs).take pc).reverse) := by
  intro fwd rev fs rs pc hf hr
  constructor
  · intro i hi
    have hlen : (pairedFriction fwd rev fs rs pc).length = pc := by
      simp [pairedFriction]
    rw [List.getD_eq_getElem _ 0 (by omega)]
    simp [pairedFriction]
  · have hlen2 : ((rev.drop rs).take pc).length = pc := by
      simp
      omega
    apply List.ext_getElem
    · simp [pairedFriction]
      omega
    · intro i h1 h2
      have hi : i < pc := by
        simpa [pairedFriction] using h1
      simp only [pairedFriction, List.getElem_map, List.getElem_range,
        List.getElem_zipWith, List.getElem_reverse, List.getElem_take,
        List.getElem_drop, sampleAt, hlen2]
      rw [List.getD_eq_getElem _ 0 (by omega),
        List.getD_eq_getElem _ 0 (by omega)]

/-- Witness for C2 at concrete inputs: 3 pairs from two 3-sample buffers
with no trim. -/
theorem C2_witness :
    pairedFriction [1, 2, 3] [4, 5, 6] 0 0 3 =
      List.zipWith pairFriction ((([1, 2, 3] : List ℚ).drop 0).take 3)
        (((([4, 5, 6] : List ℚ).drop 0).take 3).reverse) ∧
    (pairedFriction [1, 2, 3] [4, 5, 6] 0 0 3).getD 0 0 =
      pairFriction (sampleAt [1, 2, 3] (0 + 0))
        (sampleAt [4, 5, 6] (0 + (3 - 1 - 0))) := by
  have h := C2_reverse_order_pairing [1, 2, 3] [4, 5, 6] 0 0 3
    (by norm_num) (by norm_num)
  exact ⟨h.2, h.1 0 (by norm_num)⟩

/-- C3 amended: each FrictionPair has frictionMagnitude = |fwd - rev| / 2
and positionalBias = (fwd + rev) / 2; with constant readings 5 + c forward
and 3 + c reverse (a common offset c), every pair friction is 1
independent of c, while avgBias equals 4 + c — it is 4.0 exactly when the
offset is zero, and it reflects rather than cancels the common offset. -/
theorem C3_bias_cancellation :
    (∀ a b : ℚ, pairFriction a b = |a - b| / 2 ∧
      pairBias a b = (a + b) / 2) ∧
    ∀ (c n : ℚ) (k : ℕ) (f : List ℚ → ℚ), 0 < k →
      pairedFriction (List.replicate k (5 + c)) (List.replicate k (3 + c))
          0 0 k = List.replicate k 1 ∧
      (calculateCOF true (List.replicate k (5 + c))
          (List.replicate k (3 + c)) n 0 f).1.avgBias = 4 + c := by
  refine ⟨fun a b => ⟨rfl, rfl⟩, ?_⟩
  intro c n k f hk
  have hfwd : ∀ i, i < k →
      sampleAt (List.replicate k (5 + c)) i = 5 + c := by
    intro i hi
    simp only [sampleAt]
    rw [List.getD_eq_getElem _ 0 (by simp [hi])]
    simp
  have hrev : ∀ i, i < k →
      sampleAt (List.replicate k (3 + c)) i = 3 + c := by
    intro i hi
    simp only [sampleAt]
    rw [List.getD_eq_getElem _ 0 (by simp [hi])]
    simp
  have hone : ∀ i, i < k →
      pairFriction (sampleAt (List.replicate k (5 + c)) (0 + i))
        (sampleAt (List.replicate k (3 + c)) (0 + (k - 1 - i))) = 1 := by
    intro i hi
    rw [hfwd (0 + i) (by omega), hrev (0 + (k - 1 - i)) (by omega)]
    simp only [pairFriction]
    have h2 : (5 + c) - (3 + c) = 2 := by ring
    rw [h2]
    norm_num
  have hfour : ∀ i, i < k →
      pairBias (sampleAt (List.replicate k (5 + c)) (0 + i))
        (sampleAt (List.replicate k (3 + c)) (0 + (k - 1 - i))) = 4 + c := by
    intro i hi
    rw [hfwd (0 + i) (by omega), hrev (0 + (k - 1 - i)) (by omega)]
    simp only [pairBias]
    ring
  have hpf : pairedFriction (List.replicate k (5 + c))
      (List.replicate k (3 + c)) 0 0 k = List.replicate k 1 := by
    refine List.eq_replicate_iff.2 ⟨by simp [pairedFriction], ?_⟩
    intro b hb
    simp only [pairedFriction, List.mem_map, List.mem_range] at hb
    obtain ⟨i, hi, hb⟩ := hb
    rw [← hb]
    exact hone i hi
  refine ⟨hpf, ?_⟩
  have htrim : computeTrimParams ((List.replicate k (5 + c)).length : ℤ)
      ((List.replicate k (3 + c)).length : ℤ) 0 = some (0, 0, (k : ℤ)) := by
    simp only [List.length_replicate]
    unfold computeTrimParams cLong
    norm_num
    omega
  rw [calculateCOF_success htrim]
  have hpb : pairedBias (List.replicate k (5 + c))
      (List.replicate k (3 + c)) 0 0 k = List.replicate k (4 + c) := by
    refine List.eq_replicate_iff.2 ⟨by simp [pairedBias], ?_⟩
    intro b hb
    simp only [pairedBias, List.mem_map, List.mem_range] at hb
    obtain ⟨i, hi, hb⟩ := hb
    rw [← hb]
    exact hfour i hi
  have hkq : (k : ℚ) ≠ 0 := by
    exact_mod_cast Nat.pos_iff_ne_zero.mp hk
  simp only [Int.toNat_zero, Int.toNat_natCast, hpb, List.sum_replicate,
    nsmul_eq_mul]
  push_cast
  field_simp

/-- Witness for C3 at concrete inputs: offset 1 and 2 pairs. -/
theorem C3_witness :
    pairedFriction (List.replicate 2 (5 + 1)) (List.replicate 2 (3 + 1))
        0 0 2 = List.replicate 2 1 ∧
    (calculateCOF true (List.replicate 2 ((5 : ℚ) + 1))
        (List.replicate 2 ((3 : ℚ) + 1)) 1 0
        avgPercentileBand).1.avgBias = 4 + 1 := by
  have h := C3_bias_cancellation.2 1 1 2 avgPercentileBand (by norm_num)
  exact ⟨h.1, h.2⟩

set_option maxHeartbeats 4000000 in
set_option maxRecDepth 8000 in
/-- C4: the percentile-band strategy equals the specification description
on the ascending-sorted values (plain mean below 10 samples, otherwise the
mean of the half-open band [idx85, idx95) with the clamped index
adjustment), and on the sorted uniform sequence 0..99 it returns 89.5. -/
theorem C4_percentile_band :
    (∀ samples sorted : List ℚ, sorted.Perm samples →
        List.Sorted (fun a b => a ≤ b) sorted →
        avgPercentileBand samples = specPercentileBand sorted) ∧
    avgPercentileBand ((List.range 100).map fun i => (i : ℚ)) = 179 / 2 := by
  constructor
  · intro samples sorted hperm hsorted
    have hs : List.insertionSort (fun a b => a ≤ b) samples = sorted :=
      List.eq_of_perm_of_sorted
        ((List.perm_insertionSort _ _).trans hperm.symm)
        (List.sorted_insertionSort _ _) hsorted
    have hlen : sorted.length = samples.length := hperm.length_eq
    have hsum : sorted.sum = samples.sum := hperm.sum_eq
    simp only [avgPercentileBand, specPercentileBand, hs, hlen, hsum]
    by_cases h0 : samples.length = 0
    · simp [h0]
    · rw [if_neg h0]
      by_cases h10 : samples.length < 10
      · rw [if_pos h10, if_pos h10, if_pos (Nat.pos_of_ne_zero h0)]
      · rw [if_neg h10, if_neg h10]
        rw [cLong_of_nonneg (by positivity),
          cLong_of_nonneg (by positivity)]
        set i85 := ⌊(samples.length : ℚ) * (85 / 100)⌋ with hi85
        set i95 := ⌊(samples.length : ℚ) * (95 / 100)⌋ with hi95
        have h85 : 0 ≤ i85 := Int.floor_nonneg.2 (by positivity)
        have key : (if (if i95 ≤ i85 then i95 - 1 else i85) < 0 then 0
            else (if i95 ≤ i85 then i95 - 1 else i85)) =
            (if i95 ≤ i85 then max (i95 - 1) 0 else i85) := by
          split_ifs <;> omega
        rw [key]
        set a := if i95 ≤ i85 then max (i95 - 1) 0 else i85 with ha
        by_cases hrange : 0 < i95 - a
        · rw [if_pos hrange]
          push_cast
          ring
        · rw [if_neg hrange]
          have hz : (i95 - a).toNat = 0 := by omega
          rw [hz]
          simp
  · norm_num [avgPercentileBand, cLong, List.range_succ,
      List.insertionSort, List.orderedInsert,
      show Int.toNat 85 = 85 from rfl, show Int.toNat 10 = 10 from rfl]

/-- Witness for C4 at concrete inputs: the two-sample buffer [2, 1] and
its sorted permutation [1, 2]. -/
theorem C4_witness :
    avgPercentileBand [2, 1] = specPercentileBand [1, 2] ∧
    specPercentileBand [1, 2] = 3 / 2 := by
  constructor
  · exact C4_percentile_band.1 [2, 1] [1, 2] (List.Perm.swap 2 1 [])
      (by simp [List.sorted_cons])
  · norm_num [specPercentileBand]

/-- C5: the within-one-standard-deviation strategy equals the
specification description for every exact standard deviation σ (σ ≥ 0
with σ * σ = population variance): filter to the band from mean - σ to
mean + σ, return the filtered mean, falling back to the unfiltered mean
when the filtered set is empty; on [1, 1, 1, 1, 100] it excludes the
outlier and returns 1. -/
theorem C5_within_one_stddev :
    (∀ (samples : List ℚ) (σ : ℚ), 0 ≤ σ →
        σ * σ = popVariance samples →
        avgWithinOneStdDev samples = specWithinOneStdDev samples σ) ∧
    avgWithinOneStdDev [1, 1, 1, 1, 100] = 1 := by
  constructor
  · intro samples σ hσ hvar
    simp only [avgWithinOneStdDev, specWithinOneStdDev]
    by_cases h0 : samples.length = 0
    · rw [if_pos h0, if_pos h0]
    · rw [if_neg h0, if_neg h0]
      have hfilter : (samples.filter fun s =>
          (s - listMean samples) * (s - listMean samples) ≤
            popVariance samples) =
          samples.filter fun s =>
            listMean samples - σ ≤ s ∧ s ≤ listMean samples + σ := by
        apply List.filter_congr
        intro x hx
        rw [← hvar]
        simp only [decide_eq_decide]
        constructor
        · intro h
          constructor <;>
            nlinarith [mul_self_nonneg (x - listMean samples + σ),
              mul_self_nonneg (x - listMean samples - σ)]
        · intro h
          nlinarith [h.1, h.2]
      rw [hfilter]
  · norm_num [avgWithinOneStdDev, listMean, popVariance]

/-- Witness for C5 at a concrete input: on [1, 1, 1, 1, 100] the exact
standard deviation is 198/5 = 39.6 and both sides agree. -/
theorem C5_witness :
    (0 : ℚ) ≤ 198 / 5 ∧
    (198 / 5 : ℚ) * (198 / 5) = popVariance [1, 1, 1, 1, 100] ∧
    avgWithinOneStdDev [1, 1, 1, 1, 100] =
      specWithinOneStdDev [1, 1, 1, 1, 100] (198 / 5) := by
  refine ⟨by norm_num, by norm_num [popVariance, listMean], ?_⟩
  exact C5_within_one_stddev.1 [1, 1, 1, 1, 100] (198 / 5) (by norm_num)
    (by norm_num [popVariance, listMean])

/-- C9 amended: the paired-data CSV dump prints the START sentinel, the
header pos_index,fwd_force,rev_force,friction,bias, exactly one row per
pair whose force fields are printed by the 4-decimal fixed formatter
(which always emits exactly 4 digits after the dot), and the END
sentinel; on a 3-pair set the output is therefore exactly 6 lines — the
claimed 4 CSV lines framed by the two sentinels. -/
theorem C9_csv_shape :
    (∀ (fwd rev : List ℚ) (tf : ℚ) (fs rs pc : ℤ),
        computeTrimParams (fwd.length : ℤ) (rev.length : ℤ) tf =
          some (fs, rs, pc) →
        ∃ rows : List String,
          dumpPairedDataCSV fwd rev tf =
            csvStart :: csvHeader :: (rows ++ [csvEnd]) ∧
          rows.length = pc.toNat ∧
          ∀ i, i < pc.toNat → rows.getD i "" =
            csvRow i (sampleAt fwd (fs.toNat + i))
              (sampleAt rev (rs.toNat + (pc.toNat - 1 - i)))) ∧
    (∀ q : ℚ, ∃ s d : String, fmt4 q = s ++ "." ++ d ∧ d.length = 4) ∧
    dumpPairedDataCSV [5, 5, 5] [3, 3, 3] 0 =
      [csvStart, csvHeader, "0,5.0000,3.0000,1.0000,4.0000",
        "1,5.0000,3.0000,1.0000,4.0000", "2,5.0000,3.0000,1.0000,4.0000",
        csvEnd] := by
  refine ⟨?_, ?_, ?_⟩
  · intro fwd rev tf fs rs pc htrim
    refine ⟨(List.range pc.toNat).map fun i =>
      csvRow i (sampleAt fwd (fs.toNat + i))
        (sampleAt rev (rs.toNat + (pc.toNat - 1 - i))), ?_, ?_, ?_⟩
    · rw [dumpPairedDataCSV_success htrim]
      simp
    · simp
    · intro i hi
      rw [List.getD_eq_getElem _ _ (by simp [hi])]
      simp
  · intro q
    refine ⟨(if q < 0 then "-" else "") ++
      toString (⌊|q| + 1 / 20000⌋.toNat), pad4 (frac4 q), rfl, rfl⟩
  · have htrim : computeTrimParams (([5, 5, 5] : List ℚ).length : ℤ)
        (([3, 3, 3] : List ℚ).length : ℤ) 0 = some (0, 0, 3) := by
      norm_num [computeTrimParams, cLong]
    rw [dumpPairedDataCSV_success htrim]
    have h5 : frac4 5 = 0 := by norm_num [frac4]
    have h3 : frac4 3 = 0 := by norm_num [frac4]
    have h1 : frac4 1 = 0 := by norm_num [frac4]
    have h4 : frac4 4 = 0 := by norm_num [frac4]
    norm_num [csvRow, sampleAt, fmt4, List.range_succ, h5, h3, h1, h4,
      pairFriction, pairBias, show Int.toNat 3 = 3 from rfl]
    decide

/-- Witness for C9 at concrete inputs: the 3-pair dump and the formatter
applied to 1/3. -/
theorem C9_witness :
    (∃ rows : List String,
        dumpPairedDataCSV [5, 5, 5] [3, 3, 3] 0 =
          csvStart :: csvHeader :: (rows ++ [csvEnd]) ∧
        rows.length = (3 : ℤ).toNat ∧
        ∀ i, i < (3 : ℤ).toNat → rows.getD i "" =
          csvRow i (sampleAt [5, 5, 5] ((0 : ℤ).toNat + i))
            (sampleAt [3, 3, 3]
              ((0 : ℤ).toNat + ((3 : ℤ).toNat - 1 - i)))) ∧
    (∃ s d : String, fmt4 (1 / 3) = s ++ "." ++ d ∧ d.length = 4) := by
  constructor
  · apply C9_csv_shape.1
    norm_num [computeTrimParams, cLong]
  · exact C9_csv_shape.2.1 (1 / 3)

end FrictionTester
